import Mathlib

/-!
Shallow embedding of the request-processing core of the kusanagi-sdk-go
component server: the ZMQ listener loop (`startMessageListener`), the
per-request dispatch goroutine, the reactor output handling in `start`,
the error-response builder `createErrorRespose`, the channel bridge
`pipeOutput`, and the IPC address helper `IPC` from `v2/lib/client.go`.

External collaborators (the CLI input, the msgpack codec `lib.Pack` /
`lib.Unpack`, the registered action handlers and the transport) are kept
opaque: they appear as function-valued fields or parameters, exactly at the
interface the source uses.  Byte slices are modelled as `String`, durations
as nanosecond counts (`time.Duration` is an integer nanosecond count), and
channels as the list of values they carry.
-/

namespace KusanagiSdk

/-! ## IPC address helper (`v2/lib/client.go`) -/

/-- Character class of the regular expression `[a-zA-Z0-9]`: ASCII letters
and digits. -/
def isAlnumChar (c : Char) : Bool := c.isAlpha || c.isDigit

/-- Auxiliary length bound used for the termination of `runReplace`. -/
theorem dropWhile_len_le {α : Type} (p : α → Bool) :
    ∀ l : List α, (List.dropWhile p l).length ≤ l.length := by
  intro l
  induction l with
  | nil => simp [List.dropWhile]
  | cons a t ih =>
    by_cases h : p a = true
    · simp [List.dropWhile, h]
      exact Nat.le_succ_of_le ih
    · simp [List.dropWhile, h]

/-- Embeds `ipcRegexp.ReplaceAllString(s, "-")` for the pattern
`[^a-zA-Z0-9]{1,}`: each maximal run of characters outside `[a-zA-Z0-9]`
is replaced, as a whole, by one `'-'`. -/
def runReplace : List Char → List Char
  | [] => []
  | c :: cs =>
    if isAlnumChar c then c :: runReplace cs
    else '-' :: runReplace (cs.dropWhile (fun d => !(isAlnumChar d)))
termination_by l => l.length
decreasing_by
  · simp only [List.length_cons]
    exact Nat.lt_succ_of_le (Nat.le_refl _)
  · simp only [List.length_cons]
    exact Nat.lt_succ_of_le (dropWhile_len_le _ cs)

/-- Embeds `lib.IPC`: join the arguments with `"-"`, collapse every run of
non-alphanumeric characters to a single `"-"`, and prepend the fixed
scheme tag `"ipc://@kusanagi-"`. -/
def IPC (args : List String) : String :=
  "ipc://@kusanagi-" ++ String.mk (runReplace (String.intercalate "-" args).data)

/-- Character-scan formulation of the run replacement, written from the
spec's words: walk the joined string emitting alphanumeric characters
unchanged and one separator per run of non-alphanumeric characters (the
flag records whether the scan is inside such a run). -/
def squash : Bool → List Char → List Char
  | _, [] => []
  | inRun, c :: cs =>
    if isAlnumChar c then c :: squash false cs
    else if inRun then squash true cs
    else '-' :: squash true cs

/-- Definition following the spec's words for the generated local-socket
address: a fixed scheme tag followed by the identity strings joined with a
separator, in which every maximal run of non-alphanumeric characters has
been replaced by a single separator character. -/
def specLocalSocketAddress (args : List String) : String :=
  "ipc://@kusanagi-" ++ String.mk (squash false (String.intercalate "-" args).data)

theorem squash_true_eq (l : List Char) :
    squash true l = squash false (List.dropWhile (fun d => !(isAlnumChar d)) l) := by
  induction l with
  | nil => rfl
  | cons c cs ih =>
    by_cases hc : isAlnumChar c = true
    · simp [squash, List.dropWhile, hc]
    · simp [squash, List.dropWhile, hc, ih]

theorem squash_eq_runReplace_aux :
    ∀ (n : Nat) (l : List Char), l.length ≤ n → squash false l = runReplace l := by
  intro n
  induction n with
  | zero =>
    intro l h
    have : l = [] := List.eq_nil_of_length_eq_zero (Nat.le_zero.mp h)
    subst this
    simp [squash, runReplace]
  | succ n ih =>
    intro l h
    match l with
    | [] => simp [squash, runReplace]
    | c :: cs =>
      have hlen : cs.length ≤ n := Nat.le_of_succ_le_succ h
      by_cases hc : isAlnumChar c = true
      · simp [squash, runReplace, hc]
        exact ih cs hlen
      · simp [squash, runReplace, hc, squash_true_eq]
        exact ih _ (Nat.le_trans (dropWhile_len_le _ cs) hlen)

theorem squash_eq_runReplace (l : List Char) : squash false l = runReplace l :=
  squash_eq_runReplace_aux l.length l (Nat.le_refl _)

/-! ## Data model of the listener and reactor (`part_000`) -/

/-- Decoded command object (`payload.Command`).  The codec that fills it is
external; only its identity matters here, so it is modelled by an opaque
payload string.  The Go zero value corresponds to `default`. -/
structure Command where
  data : String
deriving DecidableEq, Inhabited, Repr

/-- Schema mapping (`payload.Mapping`), an opaque mapping replaced wholesale
when a message carries a schema update. -/
abbrev Mapping := List (String × String)

/-- Reply payload declared by a handler (`payload.Reply`), opaque here. -/
structure Reply where
  data : String
deriving DecidableEq, Repr

/-- CLI input values (`cli.Input`) at the getters the server uses:
`GetComponentTitle`, `GetTimeout` (milliseconds), `IsTCPEnabled`/`GetTCP`
(modelled as an optional port), `GetSocket`, `GetComponent`, `GetName`,
`GetVersion`. -/
structure Input where
  componentTitle : String
  timeout : Nat
  tcp : Option Nat
  socket : String
  component : String
  name : String
  version : String
deriving DecidableEq, Repr

/-- Per-request state (`state`): identifiers, current schemas, decoded
command, the handler's reply slot, raw payload, CLI input, the
deadline-bound cancellation context (modelled by its deadline in
nanoseconds; `none` before `context.WithTimeout` runs) and the logger
tagged with the request id. -/
structure State where
  id : String
  componentTitle : String
  action : String
  schemas : Option Mapping
  command : Command
  reply : Option Reply
  payload : String
  input : Input
  context : Option Nat
  loggerTag : String
deriving DecidableEq, Repr

/-- Outbound multipart reply frames (`responseMsg`). -/
abbrev responseMsg := List String

/-- Outcome of processing one request (`requestOutput`): back-reference to
the state, optional error and the serialized response frames. -/
structure RequestOutput where
  state : State
  err : Option String
  response : responseMsg
deriving DecidableEq, Repr

/-- Log levels of the `log` package calls made by this file. -/
inductive LogLevel where
  | critical
  | error
  | warning
deriving DecidableEq, Repr

/-- One log call: its level and formatted message. -/
structure LogEntry where
  level : LogLevel
  message : String
deriving DecidableEq, Repr

/-- Tests whether a log entry is a warning. -/
def isWarning (e : LogEntry) : Bool :=
  match e.level with
  | LogLevel.warning => true
  | _ => false

/-- Modelled from the spec: the raw multipart request message (`requestMsg`,
whose declaration is not part of the given sources).  Per the spec a valid
message carries at least the frames peer-identity, empty delimiter,
request id and action name, optionally followed by a schema-update blob
and a request payload blob; the optional blobs are absent when their frame
is missing or empty. -/
structure requestMsg where
  frames : List String
deriving DecidableEq, Repr

/-- Modelled from the spec: structural validation of a multipart message.
Absence of one of the four required frames is a validation error; the
returned message is what `log.Critical` receives. -/
def requestMsg.check (m : requestMsg) : Option String :=
  if m.frames.length < 4 then some "invalid multipart message: missing required frames"
  else none

/-- Modelled from the spec: the request id frame. -/
def requestMsg.getRequestID (m : requestMsg) : String := (m.frames.get? 2).getD ""

/-- Modelled from the spec: the action name frame. -/
def requestMsg.getAction (m : requestMsg) : String := (m.frames.get? 3).getD ""

/-- Modelled from the spec: the optional schema-update blob. -/
def requestMsg.getSchemas (m : requestMsg) : Option String :=
  match m.frames.get? 4 with
  | some v => if v = "" then none else some v
  | none => none

/-- Modelled from the spec: the optional request payload blob. -/
def requestMsg.getPayload (m : requestMsg) : Option String :=
  match m.frames.get? 5 with
  | some v => if v = "" then none else some v
  | none => none

/-- The zero value of `requestMsg`, what a receive on a closed and drained
channel yields. -/
def zeroRequestMsg : requestMsg := { frames := [] }

/-- The empty delimiter frame (`emptyFrame`). -/
def emptyFrame : String := ""

/-! ## Channel primitives used by the dispatch goroutine -/

/-- A synchronous Go channel, reduced to the one bit the dispatch goroutine
manipulates: whether `close` has run on it. -/
structure SyncChan where
  isClosed : Bool
deriving DecidableEq, Repr

/-- Models `close(c)`. -/
def closeChan (c : SyncChan) : SyncChan := { c with isClosed := true }

/-- Outcome of `c <- o`. -/
inductive sendOutcome where
  | delivered : RequestOutput → sendOutcome
  | panicked : sendOutcome
deriving DecidableEq, Repr

/-- Go channel semantics of a send: a send on a closed channel panics at
runtime; otherwise the value is handed to the receiver. -/
def chanSend (c : SyncChan) (o : RequestOutput) : sendOutcome :=
  if c.isClosed then sendOutcome.panicked else sendOutcome.delivered o

/-! ## The component server -/

/-- The SDK component server (`server`) together with its external
collaborators at the interfaces the source uses: the component is queried
only through `hasCallback` (the type-assertion based membership test of
line 169), the msgpack codec through `unpackCommand` / `unpackSchemas`
(`lib.Unpack` on the payload and schema blobs), and the registered
processor through `handler` (the single `requestOutput` it writes for a
given state) and `handlerInTime` (whether, for the request with the given
id, that write happens before the execution deadline expires).  `pid` is
`os.Getpid()`. -/
structure Server where
  input : Input
  hasCallback : String → Bool
  unpackCommand : String → Except String Command
  unpackSchemas : String → Except String Mapping
  handler : State → RequestOutput
  handlerInTime : String → Bool
  pid : Nat

/-- Embeds `getAddress`: an explicit TCP address when TCP is enabled, an
explicit `ipc://` socket when a socket name is configured, otherwise the
generated default `IPC` name built from the component identity. -/
def Server.getAddress (s : Server) : String :=
  match s.input.tcp with
  | some port => "tcp://127.0.0.1:" ++ toString port
  | none =>
    if s.input.socket ≠ "" then "ipc://" ++ s.input.socket
    else IPC [s.input.component, s.input.name, s.input.version]

/-- The request state built at lines 157-163: only id, action, schemas,
input and the request-tagged logger are set; every other field keeps its
zero value. -/
def initialState (s : Server) (schemas : Option Mapping) (msg : requestMsg) : State :=
  { id := msg.getRequestID
    componentTitle := ""
    action := msg.getAction
    schemas := schemas
    command := default
    reply := none
    payload := ""
    input := s.input
    context := none
    loggerTag := msg.getRequestID }

/-- The error message of line 170, `Invalid action for component %s: "%s"`
formatted with the component title and the action. -/
def invalidActionMessage (title action : String) : String :=
  "Invalid action for component " ++ title ++ ": \"" ++ action ++ "\""

/-- The error message of line 180, `Invalid payload for component %s: "%s"`
formatted with the component title and the action. -/
def invalidPayloadMessage (title action : String) : String :=
  "Invalid payload for component " ++ title ++ ": \"" ++ action ++ "\""

/-- The warning of line 203.  `timeout` is a `time.Duration`
(`GetTimeout()` milliseconds times `time.Millisecond`), so the `%d` verb
prints its nanosecond count. -/
def timedOutWarning (timeoutMs pid : Nat) : String :=
  "Execution timed out after " ++ toString (timeoutMs * 1000000) ++ "ms. PID: " ++ toString pid

/-- What the per-request goroutine (lines 151-205) leaves behind: the
output it sent to the shared `resc` channel (`none` when the deadline
expired and nothing was enqueued), its log calls, whether the processor
goroutine was launched, and the per-request `outc` channel after the
goroutine returned (`none` when the early error returns ran before `outc`
was created; the deferred `close(outc)` of line 193 has run otherwise). -/
structure GoResult where
  output : Option RequestOutput
  logs : List LogEntry
  handlerInvoked : Bool
  outc : Option SyncChan
deriving Repr

/-- Lines 186-204: create the deadline-bound child context, create `outc`
with its deferred close, launch the processor, and race its output against
the deadline.  When the processor wins its output is forwarded to the
shared channel; when the deadline expires first a warning is logged and
nothing is enqueued.  Either way the goroutine returns and the deferred
`close(outc)` runs. -/
def Server.runHandlerRace (s : Server) (st : State) : GoResult :=
  let st1 := { st with context := some (s.input.timeout * 1000000) }
  let outc : SyncChan := { isClosed := false }
  if s.handlerInTime st1.id then
    { output := some (s.handler st1)
      logs := []
      handlerInvoked := true
      outc := some (closeChan outc) }
  else
    { output := none
      logs := [{ level := LogLevel.warning
                 message := timedOutWarning s.input.timeout s.pid }]
      handlerInvoked := true
      outc := some (closeChan outc) }

/-- The per-request goroutine body (lines 151-205): build the request
state, reject unknown actions (handler never launched), decode the payload
blob when present — note that the source passes `state.command` to
`lib.Unpack` by value, unlike `&schemas` at line 144, so a successfully
decoded command is discarded and the state keeps the zero-value command —
then run the handler race. -/
def Server.processRequestMessage (s : Server) (schemas : Option Mapping)
    (msg : requestMsg) : GoResult :=
  let action := msg.getAction
  let st := initialState s schemas msg
  let output0 : RequestOutput := { state := st, err := none, response := [] }
  if s.hasCallback action then
    match msg.getPayload with
    | some v =>
      match s.unpackCommand v with
      | Except.error e =>
        { output := some { output0 with
            err := some (invalidPayloadMessage s.input.componentTitle action) }
          logs := [{ level := LogLevel.critical, message := "Failed to read payload: " ++ e }]
          handlerInvoked := false
          outc := none }
      | Except.ok _ => s.runHandlerRace st
    | none => s.runHandlerRace st
  else
    { output := some { output0 with
        err := some (invalidActionMessage s.input.componentTitle action) }
      logs := []
      handlerInvoked := false
      outc := none }

/-- Lines 142-147: when the message carries a schema blob, unpack it into
the shared `schemas` variable; on unpack failure log an error and keep the
previous value. -/
def Server.updateSchemas (s : Server) (schemas : Option Mapping)
    (msg : requestMsg) : Option Mapping × List LogEntry :=
  match msg.getSchemas with
  | none => (schemas, [])
  | some v =>
    match s.unpackSchemas v with
    | Except.error e => (schemas, [{ level := LogLevel.error, message := "Failed to read schemas: " ++ e }])
    | Except.ok m => (some m, [])

/-- What one iteration of the listener loop body produces for one message:
the schemas variable after the iteration, the request output sent to the
shared channel (if any), the log calls and whether a handler ran. -/
structure HandleResult where
  schemas : Option Mapping
  output : Option RequestOutput
  logs : List LogEntry
  handlerInvoked : Bool
deriving Repr

/-- The listener loop body for one received message (lines 135-205):
structurally invalid messages are logged via `log.Critical` and dropped
with no output; otherwise the schemas are updated and the per-request
goroutine processes the message. -/
def Server.handleMessage (s : Server) (schemas : Option Mapping)
    (msg : requestMsg) : HandleResult :=
  match msg.check with
  | some e =>
    { schemas := schemas
      output := none
      logs := [{ level := LogLevel.critical, message := e }]
      handlerInvoked := false }
  | none =>
    let u := s.updateSchemas schemas msg
    let g := s.processRequestMessage u.1 msg
    { schemas := u.1
      output := g.output
      logs := u.2 ++ g.logs
      handlerInvoked := g.handlerInvoked }

/-- Embeds the listener loop of `startMessageListener` (lines 127-206) over
the message channel, modelled by the list of messages still pending on it;
`fuel` bounds the number of iterations.  A Go receive `msg, ok := <-msgc`
yields `(value, true)` when a value was delivered and `(zero, false)` once
the channel is closed and drained.  The source binds the flag to a
variable named `closed` and executes `if closed { break }`, so the loop
exits as soon as a message is delivered, and keeps iterating on the
zero-value message after the channel is closed. -/
def Server.startMessageListener (s : Server) :
    Nat → Option Mapping → List requestMsg → List HandleResult
  | 0, _, _ => []
  | Nat.succ fuel, schemas, pending =>
    match pending with
    | _msg :: _rest =>
      -- a value was delivered, so the flag named `closed` is true: break
      []
    | [] =>
      -- channel closed and drained: the receive yields the zero message
      -- with a false flag, so the loop continues into the body
      let h := s.handleMessage schemas zeroRequestMsg
      h :: s.startMessageListener fuel h.schemas []

/-- The per-message dispatch applied to a sequence of accepted messages in
arrival order, threading the `schemas` variable between iterations: the
processing the listener body performs for each message it reaches. -/
def Server.dispatchBatch (s : Server) :
    Option Mapping → List requestMsg → List HandleResult
  | _, [] => []
  | schemas, m :: rest =>
    let h := s.handleMessage schemas m
    h :: s.dispatchBatch h.schemas rest

/-! ## Response builder and reactor output handling (`start`) -/

/-- Modelled from the spec: the `error` member of the reply envelope, with
its `Message` field. -/
structure ReplyError where
  message : String
deriving DecidableEq, Repr

/-- Modelled from the spec: the reply envelope produced by
`payload.NewErrorReply()` (not part of the given sources) — a reply with
no declared action-level result and an error member whose message is
initially empty. -/
structure ErrorReplyPayload where
  result : Option Reply
  error : ReplyError
deriving DecidableEq, Repr

/-- Modelled from the spec: `payload.NewErrorReply()`. -/
def newErrorReply : ErrorReplyPayload := { result := none, error := { message := "" } }

/-- Embeds `createErrorRespose` (lines 51-60): set the error message on a
fresh error reply, serialize it with the external codec `pack`
(`lib.Pack`), and on success assemble the reply frames
`[rid, emptyFrame, data]`. -/
def createErrorRespose (pack : ErrorReplyPayload → Except String String)
    (rid message : String) : Except String responseMsg :=
  let p := { newErrorReply with error := { message := message } }
  match pack p with
  | Except.error e => Except.error e
  | Except.ok data => Except.ok [rid, emptyFrame, data]

/-- What the reactor's output-channel handler leaves behind: the frames
handed successfully to the socket, if any, and its log calls. -/
structure ReactorResult where
  sent : Option responseMsg
  logs : List LogEntry
deriving DecidableEq, Repr

/-- The send half of the reactor handler (lines 309-316): `send` models
`socket.SendMessage` and returns the transport error, if any; on failure
the error is logged and nothing reaches the peer. -/
def sendResponse (send : responseMsg → Option String) (resp : responseMsg) : ReactorResult :=
  match send resp with
  | none => { sent := some resp, logs := [] }
  | some e => { sent := none, logs := [{ level := LogLevel.error, message := "Failed to send response to client: " ++ e }] }

/-- Embeds the reactor's output-channel handler (lines 293-318): an output
carrying an error is turned into a synthesized error response via
`createErrorRespose`; if that fails the failure is logged and the response
is dropped; otherwise the response frames are sent to the peer. -/
def processOutput (pack : ErrorReplyPayload → Except String String)
    (send : responseMsg → Option String) (output : RequestOutput) : ReactorResult :=
  match output.err with
  | some m =>
    match createErrorRespose pack output.state.id m with
    | Except.error e =>
      { sent := none
        logs := [{ level := LogLevel.error, message := "Request failed with error: " ++ m },
                 { level := LogLevel.error, message := "Failed to create error response: " ++ e }] }
    | Except.ok resp => sendResponse send resp
  | none => sendResponse send output.response

/-! ## The channel bridge `pipeOutput` -/

/-- A buffered channel, modelled by its buffer capacity and the ordered
list of values sent on it. -/
structure bufChan (α : Type) where
  capacity : Nat
  values : List α

/-- A value of Go's empty-interface type as it occurs here: a boxed
`requestOutput`. -/
inductive ifaceValue where
  | output : RequestOutput → ifaceValue
deriving DecidableEq, Repr

/-- The forwarding goroutine of `pipeOutput` (lines 66-70): range over the
source channel and send each value, boxed, on the pipe. -/
def forwardLoop : List RequestOutput → List ifaceValue
  | [] => []
  | o :: rest => ifaceValue.output o :: forwardLoop rest

/-- Embeds `pipeOutput` (lines 63-73): a pipe channel with the source
channel's capacity, fed by the forwarding goroutine. -/
def pipeOutput (c : bufChan RequestOutput) : bufChan ifaceValue :=
  { capacity := c.capacity, values := forwardLoop c.values }

/-! ## Derived predicates and concrete fixtures -/

/-- Whether the payload blob of `msg`, if present, decodes successfully
under the server's codec. -/
def payloadDecodes (s : Server) (msg : requestMsg) : Bool :=
  match msg.getPayload with
  | some v => (s.unpackCommand v).isOk
  | none => true

/-- Concrete CLI input used by the evaluation theorems. -/
def demoInput : Input :=
  { componentTitle := "demo"
    timeout := 5
    tcp := none
    socket := ""
    component := "service"
    name := "users"
    version := "1.0" }

/-- Concrete handler: echoes the state it was given in a fixed reply. -/
def demoHandler (st : State) : RequestOutput :=
  { state := st, err := none, response := [st.id, emptyFrame, "OK"] }

/-- Concrete server: one registered action `read`; the codec decodes the
payload blob `CMD` to a non-zero command and rejects everything else;
handlers always finish in time. -/
def demoServer : Server :=
  { input := demoInput
    hasCallback := fun a => a == "read"
    unpackCommand := fun v =>
      if v == "CMD" then Except.ok { data := "decoded-command" } else Except.error "bad payload"
    unpackSchemas := fun _ => Except.error "unreadable schemas"
    handler := demoHandler
    handlerInTime := fun _ => true
    pid := 42 }

/-- The demo server with handlers that never beat the deadline. -/
def demoTimeoutServer : Server := { demoServer with handlerInTime := fun _ => false }

/-- A structurally valid request for the registered action `read` with no
schema blob and the decodable payload blob `CMD`. -/
def demoMsg : requestMsg := { frames := ["peer-7", "", "rid-1", "read", "", "CMD"] }

/-- A multipart message missing required frames (no action frame). -/
def demoBadMsg : requestMsg := { frames := ["peer-7", "", "rid-9"] }

/-- A structurally valid request naming the unregistered action `write`. -/
def demoUnknownMsg : requestMsg := { frames := ["peer-7", "", "rid-2", "write"] }

/-- A structurally valid request for `read` whose payload blob `JUNK` does
not decode. -/
def demoBadPayloadMsg : requestMsg := { frames := ["peer-7", "", "rid-3", "read", "", "JUNK"] }

/-- The state the demo handler receives for `demoMsg`: note the zero-value
command and the deadline-bound context. -/
def demoHandledState : State :=
  { id := "rid-1"
    componentTitle := ""
    action := "read"
    schemas := none
    command := { data := "" }
    reply := none
    payload := ""
    input := demoInput
    context := some 5000000
    loggerTag := "rid-1" }

/-- A concrete request output. -/
def demoOutput : RequestOutput :=
  { state := demoHandledState, err := none, response := ["rid-1", emptyFrame, "OK"] }

/-- A concrete buffered channel of request outputs. -/
def demoChan : bufChan RequestOutput := { capacity := 1000, values := [demoOutput] }

/-- A codec serializer that always succeeds. -/
def demoPack (p : ErrorReplyPayload) : Except String String :=
  Except.ok ("E:" ++ p.error.message)

/-- A codec serializer that always fails. -/
def demoPackFail (_p : ErrorReplyPayload) : Except String String :=
  Except.error "pack failed"

/-- A transport send that always succeeds. -/
def demoSend (_r : responseMsg) : Option String := none

/-! ## Shared lemmas -/

/-- The forwarding goroutine of `pipeOutput` is the boxing map. -/
theorem forwardLoop_eq_map (l : List RequestOutput) :
    forwardLoop l = l.map ifaceValue.output := by
  induction l with
  | nil => rfl
  | cons o rest ih => simp [forwardLoop, ih]

/-- Forwarding preserves multiplicities. -/
theorem forwardLoop_count (l : List RequestOutput) (o : RequestOutput) :
    (forwardLoop l).count (ifaceValue.output o) = l.count o := by
  induction l with
  | nil => rfl
  | cons b rest ih =>
    by_cases h : b = o
    · subst h
      simp [forwardLoop, List.count_cons, ih]
    · have h2 : ifaceValue.output b ≠ ifaceValue.output o := by
        intro hc
        exact h (ifaceValue.output.inj hc)
      simp [forwardLoop, List.count_cons, ih, h, h2]

/-- Unknown action: the goroutine sends one error output and returns
before launching the handler or creating `outc`. -/
theorem processRequestMessage_unknown (s : Server) (schemas : Option Mapping)
    (msg : requestMsg) (ha : s.hasCallback msg.getAction = false) :
    s.processRequestMessage schemas msg =
      { output := some { state := initialState s schemas msg
                         err := some (invalidActionMessage s.input.componentTitle msg.getAction)
                         response := [] }
        logs := []
        handlerInvoked := false
        outc := none } := by
  unfold Server.processRequestMessage
  simp [ha]

/-- Undecodable payload: the goroutine logs one critical entry, sends one
error output and returns before launching the handler. -/
theorem processRequestMessage_badPayload (s : Server) (schemas : Option Mapping)
    (msg : requestMsg) (v e : String)
    (ha : s.hasCallback msg.getAction = true)
    (hv : msg.getPayload = some v)
    (hu : s.unpackCommand v = Except.error e) :
    s.processRequestMessage schemas msg =
      { output := some { state := initialState s schemas msg
                         err := some (invalidPayloadMessage s.input.componentTitle msg.getAction)
                         response := [] }
        logs := [{ level := LogLevel.critical, message := "Failed to read payload: " ++ e }]
        handlerInvoked := false
        outc := none } := by
  unfold Server.processRequestMessage
  simp [ha, hv, hu]

/-- Deadline expiry: the goroutine enqueues nothing, logs exactly the
timeout warning, and returns with the deferred close of `outc` run. -/
theorem processRequestMessage_timeout (s : Server) (schemas : Option Mapping)
    (msg : requestMsg)
    (ha : s.hasCallback msg.getAction = true)
    (hp : payloadDecodes s msg = true)
    (ht : s.handlerInTime msg.getRequestID = false) :
    s.processRequestMessage schemas msg =
      { output := none
        logs := [{ level := LogLevel.warning, message := timedOutWarning s.input.timeout s.pid }]
        handlerInvoked := true
        outc := some { isClosed := true } } := by
  unfold Server.processRequestMessage Server.runHandlerRace
  unfold payloadDecodes at hp
  cases hv : msg.getPayload with
  | none => simp [ha, initialState, ht, closeChan]
  | some v =>
    rw [hv] at hp
    cases hu : s.unpackCommand v with
    | error e =>
      exfalso
      simp [hu, Except.isOk, Except.toBool] at hp
    | ok c => simp [ha, hv, hu, initialState, ht, closeChan]

/-- Handler completes in time: its declared output is forwarded unchanged. -/
theorem processRequestMessage_inTime (s : Server) (schemas : Option Mapping)
    (msg : requestMsg)
    (ha : s.hasCallback msg.getAction = true)
    (hp : payloadDecodes s msg = true)
    (ht : s.handlerInTime msg.getRequestID = true) :
    s.processRequestMessage schemas msg =
      { output := some (s.handler { initialState s schemas msg with
                                    context := some (s.input.timeout * 1000000) })
        logs := []
        handlerInvoked := true
        outc := some { isClosed := true } } := by
  unfold Server.processRequestMessage Server.runHandlerRace
  unfold payloadDecodes at hp
  cases hv : msg.getPayload with
  | none => simp [ha, initialState, ht, closeChan]
  | some v =>
    rw [hv] at hp
    cases hu : s.unpackCommand v with
    | error e =>
      exfalso
      simp [hu, Except.isOk, Except.toBool] at hp
    | ok c => simp [ha, hv, hu, initialState, ht, closeChan]

/-- For a structurally valid message the loop body updates the schemas and
delegates to the per-request goroutine. -/
theorem handleMessage_valid (s : Server) (schemas : Option Mapping)
    (msg : requestMsg) (hc : msg.check = none) :
    s.handleMessage schemas msg =
      { schemas := (s.updateSchemas schemas msg).1
        output := (s.processRequestMessage (s.updateSchemas schemas msg).1 msg).output
        logs := (s.updateSchemas schemas msg).2
                  ++ (s.processRequestMessage (s.updateSchemas schemas msg).1 msg).logs
        handlerInvoked := (s.processRequestMessage (s.updateSchemas schemas msg).1 msg).handlerInvoked } := by
  unfold Server.handleMessage
  simp [hc]

/-- The schema-update step never logs at warning level. -/
theorem updateSchemas_no_warning (s : Server) (schemas : Option Mapping)
    (msg : requestMsg) :
    (s.updateSchemas schemas msg).2.filter isWarning = [] := by
  unfold Server.updateSchemas
  cases h : msg.getSchemas with
  | none => rfl
  | some v =>
    cases h2 : s.unpackSchemas v with
    | error e => simp [h2, isWarning, List.filter]
    | ok m => simp [h2]

/-- Any output carrying an error is turned into an error response addressed
by the output's request id, provided serialization and send succeed. -/
theorem processOutput_err_sent (pack : ErrorReplyPayload → Except String String)
    (send : responseMsg → Option String) (o : RequestOutput) (m : String)
    (herr : o.err = some m)
    (hpack : ∀ p, (pack p).isOk = true)
    (hsend : ∀ resp, send resp = none) :
    ∃ d, processOutput pack send o
      = { sent := some [o.state.id, emptyFrame, d], logs := [] } := by
  unfold processOutput createErrorRespose
  cases hp2 : pack { newErrorReply with error := { message := m } } with
  | error e2 =>
    exfalso
    have hcontra := hpack { newErrorReply with error := { message := m } }
    rw [hp2] at hcontra
    simp [Except.isOk, Except.toBool] at hcontra
  | ok d =>
    refine ⟨d, ?_⟩
    simp [herr, hp2, sendResponse, hsend]

/-- The schema-update step ignores the timing of handlers. -/
theorem updateSchemas_inTime (s : Server) (f : String → Bool)
    (schemas : Option Mapping) (msg : requestMsg) :
    ({ s with handlerInTime := f } : Server).updateSchemas schemas msg
      = s.updateSchemas schemas msg := rfl

/-- The loop body is unchanged when the handler-timing oracle is replaced
by one that agrees on this message's request id. -/
theorem processRequestMessage_inTime_congr (s : Server) (f g : String → Bool)
    (schemas : Option Mapping) (msg : requestMsg)
    (h : f msg.getRequestID = g msg.getRequestID) :
    ({ s with handlerInTime := f } : Server).processRequestMessage schemas msg
      = ({ s with handlerInTime := g } : Server).processRequestMessage schemas msg := by
  unfold Server.processRequestMessage Server.runHandlerRace
  cases hcb : s.hasCallback msg.getAction with
  | false => simp [hcb, initialState]
  | true =>
    cases hv : msg.getPayload with
    | none => simp [hcb, hv, initialState, h]
    | some v =>
      cases hu : s.unpackCommand v with
      | error e => simp [hcb, hv, hu, initialState]
      | ok c => simp [hcb, hv, hu, initialState, h]

/-- One-message congruence for the whole listener body. -/
theorem handleMessage_inTime_congr (s : Server) (f g : String → Bool)
    (schemas : Option Mapping) (msg : requestMsg)
    (h : f msg.getRequestID = g msg.getRequestID) :
    ({ s with handlerInTime := f } : Server).handleMessage schemas msg
      = ({ s with handlerInTime := g } : Server).handleMessage schemas msg := by
  cases hc : msg.check with
  | some e =>
    unfold Server.handleMessage
    rw [hc]
  | none =>
    have hP := processRequestMessage_inTime_congr s f g (s.updateSchemas schemas msg).1 msg h
    simp only [Server.handleMessage, hc]
    rw [show (({ s with handlerInTime := f } : Server).updateSchemas schemas msg)
          = s.updateSchemas schemas msg from rfl]
    rw [show (({ s with handlerInTime := g } : Server).updateSchemas schemas msg)
          = s.updateSchemas schemas msg from rfl]
    rw [hP]

/-- The schemas threading of the loop body ignores handler timing. -/
theorem handleMessage_schemas_inTime (s : Server) (f : String → Bool)
    (schemas : Option Mapping) (msg : requestMsg) :
    (({ s with handlerInTime := f } : Server).handleMessage schemas msg).schemas
      = (s.handleMessage schemas msg).schemas := by
  unfold Server.handleMessage
  cases hc : msg.check with
  | some e => rfl
  | none => rfl

/-- Replacing the handler-timing oracle by one that agrees away from the
request id `r` leaves the batch results of every message whose request id
differs from `r` unchanged. -/
theorem dispatchBatch_congr_off (s : Server) (f g : String → Bool) (r : String)
    (hfg : ∀ q, q ≠ r → f q = g q) :
    ∀ (msgs : List requestMsg) (schemas : Option Mapping) (i : Nat) (m : requestMsg),
      msgs.get? i = some m → m.getRequestID ≠ r →
      (({ s with handlerInTime := f } : Server).dispatchBatch schemas msgs).get? i
        = (({ s with handlerInTime := g } : Server).dispatchBatch schemas msgs).get? i := by
  intro msgs
  induction msgs with
  | nil =>
    intro schemas i m hm hr
    simp at hm
  | cons hd tl ih =>
    intro schemas i m hm hr
    cases i with
    | zero =>
      have hhd : hd = m := by
        simp [List.get?] at hm
        exact hm
      subst hhd
      have hcong := handleMessage_inTime_congr s f g schemas hd (hfg _ hr)
      simp [Server.dispatchBatch, hcong]
    | succ j =>
      have hm2 : tl.get? j = some m := by
        simpa [List.get?] using hm
      have hs1 := handleMessage_schemas_inTime s f schemas hd
      have hs2 := handleMessage_schemas_inTime s g schemas hd
      simp only [Server.dispatchBatch, List.get?]
      rw [hs1, hs2]
      exact ih (s.handleMessage schemas hd).schemas j m hm2 hr

/-! ## Claims -/

/-- C1.  The claim states that every accepted inbound message produces
exactly one `RequestOutput` (unless the handler misses its deadline).  The
listener loop of `startMessageListener` contradicts it: the second result
of the channel receive at line 129 — true exactly when a message was
delivered — is bound to a variable named `closed` and tested by
`if closed { break }`, so the loop exits as soon as the first message
arrives and no delivered message is ever validated or dispatched: for any
server, any fuel and any nonempty pending message list the loop produces
no `HandleResult` at all, in particular zero `RequestOutput`s for the
concrete valid request `demoMsg`. -/
theorem listenerDropsDeliveredMessages :
    (∀ (s : Server) (fuel : Nat) (schemas : Option Mapping)
        (m : requestMsg) (ms : List requestMsg),
        s.startMessageListener fuel schemas (m :: ms) = [])
    ∧ demoServer.startMessageListener 8 none [demoMsg] = [] := by
  constructor
  · intro s fuel schemas m ms
    cases fuel <;> rfl
  · rfl

/-- C2.  Evaluation of the dispatch pipeline at a concrete well-formed
request for the registered action `read` whose payload blob decodes to the
command `decoded-command`: the handler runs and its declared reply is
forwarded as the single output, but the state it receives carries the
zero-value command, not the decoded one — line 178 hands `state.command`
to the codec by value (contrast `&schemas` at line 144), so the decoded
command never reaches the handler's request state. -/
theorem handlerStateDropsDecodedCommand :
    demoServer.unpackCommand "CMD" = Except.ok { data := "decoded-command" }
    ∧ (demoServer.handleMessage none demoMsg).output
        = some { state := demoHandledState, err := none, response := ["rid-1", "", "OK"] }
    ∧ demoHandledState.command = { data := "" }
    ∧ ({ data := "" } : Command) ≠ { data := "decoded-command" } := by
  refine ⟨rfl, ?_, rfl, by decide⟩
  rfl

/-- C8.  For every list of component-identity strings the generated
local-socket address is the fixed scheme tag followed by the strings
joined with the separator with every maximal non-alphanumeric run
collapsed to one separator (the spec-side formulation
`specLocalSocketAddress`), and with TCP disabled and no explicit socket
name `getAddress` is exactly `IPC` of the component identity. -/
theorem ipcAddressMatchesSpec (args : List String) (s : Server)
    (htcp : s.input.tcp = none) (hsock : s.input.socket = "") :
    IPC args = specLocalSocketAddress args
    ∧ s.getAddress = IPC [s.input.component, s.input.name, s.input.version] := by
  constructor
  · unfold IPC specLocalSocketAddress
    rw [squash_eq_runReplace]
  · unfold Server.getAddress
    rw [htcp]
    simp [hsock]

/-- Witness for C8 at a concrete identity and the demo server. -/
theorem ipcAddressMatchesSpecWitness :
    IPC ["calc", "1.0.0", "node A"] = specLocalSocketAddress ["calc", "1.0.0", "node A"]
    ∧ demoServer.getAddress = IPC ["service", "users", "1.0"] :=
  ipcAddressMatchesSpec ["calc", "1.0.0", "node A"] demoServer rfl rfl

/-- C9.  `pipeOutput` returns a channel with the same buffer capacity, and
the forwarding goroutine sends exactly the boxed source values, in order;
multiplicities are preserved, so no value is dropped or duplicated. -/
theorem pipeOutputForwardsFaithfully (c : bufChan RequestOutput) :
    (pipeOutput c).capacity = c.capacity
    ∧ (pipeOutput c).values = c.values.map ifaceValue.output
    ∧ ∀ o : RequestOutput,
        (pipeOutput c).values.count (ifaceValue.output o) = c.values.count o := by
  refine ⟨rfl, forwardLoop_eq_map c.values, ?_⟩
  intro o
  exact forwardLoop_count c.values o

/-- C10.  When the deadline expires first, the dispatch goroutine returns
with nothing enqueued and its deferred `close(outc)` has run; a handler
that completes afterwards and writes its output to that sink performs a
send on a closed channel, which panics, rather than being delivered and
silently discarded. -/
theorem lateHandlerSendPanics (s : Server) (schemas : Option Mapping)
    (msg : requestMsg) (o : RequestOutput)
    (ha : s.hasCallback msg.getAction = true)
    (hp : payloadDecodes s msg = true)
    (ht : s.handlerInTime msg.getRequestID = false) :
    (s.processRequestMessage schemas msg).output = none
    ∧ (s.processRequestMessage schemas msg).outc = some { isClosed := true }
    ∧ chanSend { isClosed := true } o = sendOutcome.panicked
    ∧ ∀ o' : RequestOutput, chanSend { isClosed := true } o ≠ sendOutcome.delivered o' := by
  rw [processRequestMessage_timeout s schemas msg ha hp ht]
  refine ⟨rfl, rfl, rfl, ?_⟩
  intro o' hcontra
  simp [chanSend] at hcontra

/-- C3.  A well-formed request naming an unregistered action: the dispatch
engine emits exactly one `RequestOutput` whose error message names the
component title and the action, the handler is never invoked, and the
reactor sends exactly one synthesized error reply correlated to the
request's identity frame. -/
theorem unknownActionErrorReply (s : Server) (schemas : Option Mapping)
    (msg : requestMsg) (pack : ErrorReplyPayload → Except String String)
    (send : responseMsg → Option String) (data : String)
    (hc : msg.check = none)
    (ha : s.hasCallback msg.getAction = false)
    (hpack : pack { result := none
                    error := { message := invalidActionMessage s.input.componentTitle msg.getAction } }
               = Except.ok data)
    (hsend : send [msg.getRequestID, emptyFrame, data] = none) :
    (s.handleMessage schemas msg).handlerInvoked = false
    ∧ ∃ o : RequestOutput,
        (s.handleMessage schemas msg).output = some o
        ∧ o.err = some (invalidActionMessage s.input.componentTitle msg.getAction)
        ∧ o.state.id = msg.getRequestID
        ∧ processOutput pack send o
            = { sent := some [msg.getRequestID, emptyFrame, data], logs := [] } := by
  rw [handleMessage_valid s schemas msg hc]
  rw [processRequestMessage_unknown s _ msg ha]
  refine ⟨rfl, ⟨_, rfl, rfl, rfl, ?_⟩⟩
  unfold processOutput createErrorRespose
  simp [initialState, newErrorReply, hpack, sendResponse, hsend]

/-- Witness for C3 at the demo server and the unregistered action. -/
theorem unknownActionErrorReplyWitness :
    (demoServer.handleMessage none demoUnknownMsg).handlerInvoked = false
    ∧ ∃ o : RequestOutput,
        (demoServer.handleMessage none demoUnknownMsg).output = some o
        ∧ o.err = some (invalidActionMessage "demo" "write")
        ∧ o.state.id = "rid-2"
        ∧ processOutput demoPack demoSend o
            = { sent := some ["rid-2", emptyFrame, "E:" ++ invalidActionMessage "demo" "write"]
                logs := [] } :=
  unknownActionErrorReply demoServer none demoUnknownMsg demoPack demoSend
    ("E:" ++ invalidActionMessage "demo" "write") rfl rfl rfl rfl

/-- C4.  An accepted request whose payload blob fails to decode: the
dispatch engine logs the failure, emits exactly one `RequestOutput`
carrying an error, the handler is never invoked, and the reactor turns the
output into an error reply for the peer. -/
theorem badPayloadErrorReply (s : Server) (schemas : Option Mapping)
    (msg : requestMsg) (v e : String)
    (pack : ErrorReplyPayload → Except String String)
    (send : responseMsg → Option String) (data : String)
    (hc : msg.check = none)
    (ha : s.hasCallback msg.getAction = true)
    (hv : msg.getPayload = some v)
    (hu : s.unpackCommand v = Except.error e)
    (hpack : pack { result := none
                    error := { message := invalidPayloadMessage s.input.componentTitle msg.getAction } }
               = Except.ok data)
    (hsend : send [msg.getRequestID, emptyFrame, data] = none) :
    (s.handleMessage schemas msg).handlerInvoked = false
    ∧ ∃ o : RequestOutput,
        (s.handleMessage schemas msg).output = some o
        ∧ o.err = some (invalidPayloadMessage s.input.componentTitle msg.getAction)
        ∧ o.state.id = msg.getRequestID
        ∧ processOutput pack send o
            = { sent := some [msg.getRequestID, emptyFrame, data], logs := [] } := by
  rw [handleMessage_valid s schemas msg hc]
  rw [processRequestMessage_badPayload s _ msg v e ha hv hu]
  refine ⟨rfl, ⟨_, rfl, rfl, rfl, ?_⟩⟩
  unfold processOutput createErrorRespose
  simp [initialState, newErrorReply, hpack, sendResponse, hsend]

/-- Witness for C4 at the demo server and the undecodable payload. -/
theorem badPayloadErrorReplyWitness :
    (demoServer.handleMessage none demoBadPayloadMsg).handlerInvoked = false
    ∧ ∃ o : RequestOutput,
        (demoServer.handleMessage none demoBadPayloadMsg).output = some o
        ∧ o.err = some (invalidPayloadMessage "demo" "read")
        ∧ o.state.id = "rid-3"
        ∧ processOutput demoPack demoSend o
            = { sent := some ["rid-3", emptyFrame, "E:" ++ invalidPayloadMessage "demo" "read"]
                logs := [] } :=
  badPayloadErrorReply demoServer none demoBadPayloadMsg "JUNK" "bad payload" demoPack demoSend
    ("E:" ++ invalidPayloadMessage "demo" "read") rfl rfl rfl rfl rfl rfl

/-- C7.  `createErrorRespose` packs a reply envelope with no declared
result and the error message set to the given message, assembling the
frames `[rid, emptyFrame, data]` on success; when serialization fails, the
reactor logs the failure at the point of use and drops the response, so
the peer receives no reply at all. -/
theorem buildErrorEnvelopeDropOnPackFailure
    (pack packF : ErrorReplyPayload → Except String String)
    (send : responseMsg → Option String)
    (rid m e data : String) (output : RequestOutput)
    (hpack : pack { result := none, error := { message := m } } = Except.ok data)
    (hpackF : packF { result := none, error := { message := m } } = Except.error e)
    (herr : output.err = some m) :
    createErrorRespose pack rid m = Except.ok [rid, emptyFrame, data]
    ∧ processOutput packF send output
        = { sent := none
            logs := [{ level := LogLevel.error, message := "Request failed with error: " ++ m },
                     { level := LogLevel.error, message := "Failed to create error response: " ++ e }] } := by
  constructor
  · unfold createErrorRespose
    simp [newErrorReply, hpack]
  · unfold processOutput createErrorRespose
    simp [herr, newErrorReply, hpackF]

/-- Witness for C7 at concrete codecs and a concrete error output. -/
theorem buildErrorEnvelopeDropOnPackFailureWitness :
    createErrorRespose demoPack "rid-1" "boom" = Except.ok ["rid-1", emptyFrame, "E:boom"]
    ∧ processOutput demoPackFail demoSend
        { state := demoHandledState, err := some "boom", response := [] }
        = { sent := none
            logs := [{ level := LogLevel.error, message := "Request failed with error: " ++ "boom" },
                     { level := LogLevel.error, message := "Failed to create error response: " ++ "pack failed" }] } :=
  buildErrorEnvelopeDropOnPackFailure demoPack demoPackFail demoSend "rid-1" "boom"
    "pack failed" "E:boom" { state := demoHandledState, err := some "boom", response := [] }
    rfl rfl rfl

/-- C5.  A request whose handler misses the deadline: nothing is enqueued
for it (the peer receives zero replies), the logs contain exactly one
warning — whose message spells out the timeout duration and the process
id — and replacing the handler-timing oracle by one that agrees away from
this request's id leaves every batch entry for a message with a different
request id unchanged, so unrelated requests are processed identically. -/
theorem timeoutDropsOutputWithOneWarning (s : Server) (f g : String → Bool)
    (r : String) (schemas : Option Mapping) (msg : requestMsg)
    (msgs : List requestMsg)
    (hc : msg.check = none)
    (ha : s.hasCallback msg.getAction = true)
    (hp : payloadDecodes s msg = true)
    (ht : s.handlerInTime msg.getRequestID = false)
    (hfg : ∀ q, q ≠ r → f q = g q) :
    (s.handleMessage schemas msg).output = none
    ∧ (s.handleMessage schemas msg).logs.filter isWarning
        = [{ level := LogLevel.warning
             message := "Execution timed out after "
               ++ toString (s.input.timeout * 1000000) ++ "ms. PID: " ++ toString s.pid }]
    ∧ ∀ (i : Nat) (m : requestMsg), msgs.get? i = some m → m.getRequestID ≠ r →
        (({ s with handlerInTime := f } : Server).dispatchBatch schemas msgs).get? i
          = (({ s with handlerInTime := g } : Server).dispatchBatch schemas msgs).get? i := by
  refine ⟨?_, ?_, ?_⟩
  · rw [handleMessage_valid s schemas msg hc]
    rw [processRequestMessage_timeout s _ msg ha hp ht]
  · rw [handleMessage_valid s schemas msg hc]
    rw [processRequestMessage_timeout s _ msg ha hp ht]
    show ((s.updateSchemas schemas msg).2
            ++ [({ level := LogLevel.warning
                   message := timedOutWarning s.input.timeout s.pid } : LogEntry)]).filter isWarning = _
    rw [List.filter_append, updateSchemas_no_warning]
    simp [isWarning, List.filter, timedOutWarning]
  · intro i m hm hr
    exact dispatchBatch_congr_off s f g r hfg msgs schemas i m hm hr

/-- Witness for C5: the demo timeout server, the valid demo request and a
one-message batch. -/
theorem timeoutDropsOutputWithOneWarningWitness :
    (demoTimeoutServer.handleMessage none demoMsg).output = none
    ∧ (demoTimeoutServer.handleMessage none demoMsg).logs.filter isWarning
        = [{ level := LogLevel.warning
             message := "Execution timed out after "
               ++ toString (demoTimeoutServer.input.timeout * 1000000)
               ++ "ms. PID: " ++ toString demoTimeoutServer.pid }]
    ∧ (({ demoTimeoutServer with handlerInTime := fun _ => false } : Server).dispatchBatch
          none [demoMsg]).get? 0
        = (({ demoTimeoutServer with handlerInTime := fun q => q == "rid-9" } : Server).dispatchBatch
            none [demoMsg]).get? 0 := by
  have h := timeoutDropsOutputWithOneWarning demoTimeoutServer (fun _ => false)
    (fun q => q == "rid-9") "rid-9" none demoMsg [demoMsg] rfl rfl rfl rfl
    (fun q hq => by simp [hq])
  exact ⟨h.1, h.2.1, h.2.2 0 demoMsg rfl (by decide)⟩

/-- C6.  A multipart message missing a required frame is dropped with
exactly one diagnostic and zero outbound messages; a structurally valid
message — one whose request id frame is present — with a bad action or an
undecodable payload instead yields exactly one error output, which the
reactor turns into exactly one error response addressed by the message's
request id. -/
theorem missingFrameDroppedMalformedFieldsAnswered (s : Server)
    (schemas : Option Mapping) (bad msg : requestMsg) (e : String)
    (pack : ErrorReplyPayload → Except String String)
    (send : responseMsg → Option String)
    (hbad : bad.check = some e)
    (hok : msg.check = none)
    (hmal : s.hasCallback msg.getAction = false
            ∨ (s.hasCallback msg.getAction = true
               ∧ ∃ v errv, msg.getPayload = some v ∧ s.unpackCommand v = Except.error errv))
    (hpack : ∀ p, (pack p).isOk = true)
    (hsend : ∀ resp, send resp = none) :
    s.handleMessage schemas bad
      = { schemas := schemas
          output := none
          logs := [{ level := LogLevel.critical, message := e }]
          handlerInvoked := false }
    ∧ ∃ o : RequestOutput,
        (s.handleMessage schemas msg).output = some o
        ∧ o.err.isSome = true
        ∧ ∃ d, processOutput pack send o
            = { sent := some [msg.getRequestID, emptyFrame, d], logs := [] } := by
  constructor
  · unfold Server.handleMessage
    rw [hbad]
  · rw [handleMessage_valid s schemas msg hok]
    cases hmal with
    | inl ha =>
      rw [processRequestMessage_unknown s _ msg ha]
      refine ⟨_, rfl, rfl, ?_⟩
      exact processOutput_err_sent pack send _ _ rfl hpack hsend
    | inr hbadp =>
      obtain ⟨ha, v, errv, hv, hu⟩ := hbadp
      rw [processRequestMessage_badPayload s _ msg v errv ha hv hu]
      refine ⟨_, rfl, rfl, ?_⟩
      exact processOutput_err_sent pack send _ _ rfl hpack hsend

/-- Witness for C6: the frame-deficient demo message and the well-formed
demo message with an unregistered action. -/
theorem missingFrameDroppedMalformedFieldsAnsweredWitness :
    demoServer.handleMessage none demoBadMsg
      = { schemas := none
          output := none
          logs := [{ level := LogLevel.critical
                     message := "invalid multipart message: missing required frames" }]
          handlerInvoked := false }
    ∧ ∃ o : RequestOutput,
        (demoServer.handleMessage none demoUnknownMsg).output = some o
        ∧ o.err.isSome = true
        ∧ ∃ d, processOutput demoPack demoSend o
            = { sent := some ["rid-2", emptyFrame, d], logs := [] } :=
  missingFrameDroppedMalformedFieldsAnswered demoServer none demoBadMsg demoUnknownMsg
    "invalid multipart message: missing required frames" demoPack demoSend
    rfl rfl (Or.inl rfl) (fun _ => rfl) (fun _ => rfl)

/-- Witness for C10: the demo timeout server, the demo message and a
concrete late output. -/
theorem lateHandlerSendPanicsWitness :
    (demoTimeoutServer.processRequestMessage none demoMsg).output = none
    ∧ (demoTimeoutServer.processRequestMessage none demoMsg).outc = some { isClosed := true }
    ∧ chanSend { isClosed := true } demoOutput = sendOutcome.panicked
    ∧ ∀ o' : RequestOutput,
        chanSend { isClosed := true } demoOutput ≠ sendOutcome.delivered o' :=
  lateHandlerSendPanics demoTimeoutServer none demoMsg demoOutput rfl rfl rfl

end KusanagiSdk
